import Mathlib

/-!
Shallow embedding of `cloudfiles/container.py` (python-cloudfiles).

The module is a client-side binding: each method issues at most one HTTP
request through an injected connection object and interprets the response.
We model

* a response as a record of status, reason, header list and body;
* the request a method issues (method verb, CDN vs storage endpoint, path
  segments, headers, query parameters) as data accumulated in a trace;
* each Python method as a pure function taking the container state and the
  response the connection would return, and producing an `Outcome`:
  the list of requests issued, the number of `read()` calls performed on
  the response body, and either a raised error or the resulting value.

Python truthiness of the optional string fields (`None` and `""` are both
falsy) is modelled by `truthy`; the duck-typed `connection` argument is
modelled by `PyConn` so that the `ContainerResults.__getslice__` path -
which passes the name list itself as the connection - can be expressed, an
attribute access `connection.cdn_enabled` on a non-connection raising
`AttributeError` as in Python.
-/

set_option autoImplicit false

namespace CloudFiles

/-- HTTP verbs used by the module. -/
inductive Method where
  | GET | PUT | POST | HEAD | DELETE
  deriving DecidableEq, Repr

/-- One HTTP request as issued through the connection collaborator:
`isCdn` distinguishes `cdn_request` from `make_request`. -/
structure Request where
  isCdn : Bool
  method : Method
  path : List String
  hdrs : List (String × String)
  parms : List (String × String)
  deriving DecidableEq, Repr

/-- The response contract of the connection collaborator: `status`,
`reason`, `getheaders()` (ordered name/value pairs) and the body that
`read()` would return. -/
structure Response where
  status : Nat
  reason : String
  headers : List (String × String)
  body : String
  deriving DecidableEq, Repr

/-- The errors the module can raise.  `attributeError` models Python's
`AttributeError` on a duck-typing failure, `valueError` a failed `int()`
conversion; the rest are the module's own error classes from `errors.py`. -/
inductive Err where
  | invalidContainerName (name : Option String)
  | invalidObjectName (name : Option String)
  | containerNotPublic
  | cdnNotEnabled
  | responseError (status : Nat) (reason : String)
  | attributeError (attr : String)
  | valueError
  deriving DecidableEq, Repr

/-- The duck-typed `connection` argument.  Normally a connection object
(of which only the `cdn_enabled` flag is consumed by this module; the
requests it would transport are recorded in the trace and the responses
supplied as arguments); `ContainerResults.__getslice__` erroneously passes
the list of container names, and the default argument is `None`. -/
inductive PyConn where
  | conn (cdn_enabled : Bool)
  | names (ns : List String)
  | pyNone
  deriving DecidableEq, Repr

/-- Attribute access `connection.cdn_enabled`: succeeds only on an actual
connection object; a list or `None` has no such attribute. -/
def getattrCdnEnabled : PyConn → Except Err Bool
  | .conn b => .ok b
  | .names _ => .error (.attributeError "cdn_enabled")
  | .pyNone => .error (.attributeError "cdn_enabled")

instance exceptDecEq {ε α : Type} [DecidableEq ε] [DecidableEq α] : DecidableEq (Except ε α) :=
  fun a b =>
    match a, b with
    | .error x, .error y =>
      if h : x = y then .isTrue (by rw [h]) else .isFalse (by intro hh; injection hh with h2; exact h h2)
    | .error _, .ok _ => .isFalse (by intro hh; injection hh)
    | .ok _, .error _ => .isFalse (by intro hh; injection hh)
    | .ok x, .ok y =>
      if h : x = y then .isTrue (by rw [h]) else .isFalse (by intro hh; injection hh with h2; exact h h2)

/-- Result of running one method: the requests it issued, how many times
it called `read()` on the response body, and the raised error or value. -/
structure Outcome (α : Type) where
  reqs : List Request
  reads : Nat
  res : Except Err α
  deriving DecidableEq, Repr

/-- Python truthiness of an optional string: `None` and `""` are falsy. -/
def truthy : Option String → Bool
  | none => false
  | some s => s ≠ ""

/-- Python `a or b` on optional strings: `a` if truthy, else `b`. -/
def pyOr (a b : Option String) : Option String :=
  if truthy a then a else b

/-- The state of a `Container` instance: its (possibly unset) name, the
stored connection, and the cached object/CDN metadata fields. -/
structure Container where
  name : Option String
  conn : PyConn
  object_count : Option Int
  size_used : Option Int
  cdn_uri : Option String
  cdn_ttl : Option Int
  cdn_agent_acl : Option String
  cdn_referer_acl : Option String
  deriving DecidableEq, Repr

/-- The name-setter check (`Container.__set_name`): a string containing a
slash is rejected; a `None` name passes (it is not a string). -/
def nameHasSlash : Option String → Bool
  | none => false
  | some s => decide ('/' ∈ s.toList)

/-- Modelled from the spec: the `requires_name(InvalidContainerName)`
decorator from `utils.py` (not part of the sources here) guards each
decorated method, raising the given error when the container's name is
missing or empty ("requires non-empty name" / "requires valid container
name"), before the method body runs and hence before any request. -/
def requiresNameOk (c : Container) : Bool :=
  truthy c.name

/-- The container name as the string passed in a request path (by the
time a request is built the name is a non-empty string). -/
def nameStr (c : Container) : String :=
  c.name.getD ""

/-- Python `str.lower()`, written over the character list so that it
evaluates by kernel reduction (header names here are ASCII). -/
def lowerStr (s : String) : String :=
  String.mk (s.toList.map Char.toLower)

/-- Python `int(s)` on a header value. -/
def pyInt (s : String) : Except Err Int :=
  match s.toInt? with
  | some n => .ok n
  | none => .error .valueError

/-- One iteration of the header loop of `_fetch_cdn_data`: the four
case-insensitive comparisons against `x-cdn-uri`, `x-ttl`,
`x-user-agent-acl`, `x-referrer-acl`, storing a match into the
corresponding field (`x-ttl` via `int()`). -/
def applyHdr (c : Container) (h : String × String) : Except Err Container :=
  let k := lowerStr h.1
  if k == "x-cdn-uri" then .ok { c with cdn_uri := some h.2 }
  else if k == "x-ttl" then (pyInt h.2).map fun n => { c with cdn_ttl := some n }
  else if k == "x-user-agent-acl" then .ok { c with cdn_agent_acl := some h.2 }
  else if k == "x-referrer-acl" then .ok { c with cdn_referer_acl := some h.2 }
  else .ok c

/-- The header loop of `_fetch_cdn_data` over `response.getheaders()`. -/
def scanHdrs (c : Container) : List (String × String) → Except Err Container
  | [] => .ok c
  | h :: rest =>
    match applyHdr c h with
    | .error e => .error e
    | .ok c2 => scanHdrs c2 rest

/-- `Container._fetch_cdn_data`: HEAD to the CDN endpoint for the
container name; on a 2xx response the headers are scanned into the CDN
metadata fields, a non-2xx response is silently ignored. -/
def Container.fetch_cdn_data (c : Container) (resp : Response) : Outcome Container :=
  if requiresNameOk c then
    let req : Request := ⟨true, .HEAD, [nameStr c], [], []⟩
    if 200 ≤ resp.status ∧ resp.status < 300 then
      match scanHdrs c resp.headers with
      | .error e => ⟨[req], 0, .error e⟩
      | .ok c2 => ⟨[req], 0, .ok c2⟩
    else ⟨[req], 0, .ok c⟩
  else ⟨[], 0, .error (.invalidContainerName c.name)⟩

/-- `Container.__init__`: validates the name through the setter, stores
the connection and cached counts, initialises the CDN fields to `None`,
and - whenever `connection.cdn_enabled` - immediately performs one CDN
metadata fetch, whose response is the `headResp` argument. -/
def Container.init (connection : PyConn) (name : Option String)
    (count size : Option Int) (headResp : Response) : Outcome Container :=
  if nameHasSlash name then
    ⟨[], 0, .error (.invalidContainerName name)⟩
  else
    let c : Container := ⟨name, connection, count, size, none, none, none, none⟩
    match getattrCdnEnabled connection with
    | .error e => ⟨[], 0, .error e⟩
    | .ok b => if b then c.fetch_cdn_data headResp else ⟨[], 0, .ok c⟩

/-- The header dictionary built by `make_public` (lines 110-114): `X-TTL`
and `X-CDN-Enabled` always, the two ACL headers only when the (already
defaulted) values are truthy. -/
def mkPublicHdrs (ttl : Int) (ua ra : Option String) : List (String × String) :=
  [("X-TTL", toString ttl), ("X-CDN-Enabled", "True")]
    ++ (if truthy ua then [("X-User-Agent-ACL", ua.getD "")] else [])
    ++ (if truthy ra then [("X-Referrer-ACL", ra.getD "")] else [])

/-- The final loop of `make_public`: re-read `cdn_uri` from any
`x-cdn-uri` response header (last occurrence wins). -/
def uriScan (c : Container) : List (String × String) → Container
  | [] => c
  | h :: rest =>
    uriScan (if lowerStr h.1 == "x-cdn-uri" then { c with cdn_uri := some h.2 } else c) rest

/-- `Container.make_public(ttl, user_agent_acl, referer_acl)`: name guard,
CDN-enabled guard, then POST (update, with ACL arguments defaulted from
the cached values by Python `or`) when `cdn_uri` is truthy else PUT
(create); non-2xx raises `ResponseError(status, reason)`; on success the
TTL and ACL fields are stored from the (defaulted) arguments and
`cdn_uri` re-read from the response headers.  The response body is never
read. -/
def Container.make_public (c : Container) (ttl : Int)
    (user_agent_acl referer_acl : Option String) (resp : Response) : Outcome Container :=
  if requiresNameOk c then
    match getattrCdnEnabled c.conn with
    | .error e => ⟨[], 0, .error e⟩
    | .ok enabled =>
      if enabled then
        let ua := if truthy c.cdn_uri then pyOr user_agent_acl c.cdn_agent_acl else user_agent_acl
        let ra := if truthy c.cdn_uri then pyOr referer_acl c.cdn_referer_acl else referer_acl
        let request_method : Method := if truthy c.cdn_uri then .POST else .PUT
        let req : Request := ⟨true, request_method, [nameStr c], mkPublicHdrs ttl ua ra, []⟩
        if resp.status < 200 ∨ 300 ≤ resp.status then
          ⟨[req], 0, .error (.responseError resp.status resp.reason)⟩
        else
          let c1 : Container := { c with cdn_ttl := some ttl, cdn_agent_acl := ua, cdn_referer_acl := ra }
          ⟨[req], 0, .ok (uriScan c1 resp.headers)⟩
      else ⟨[], 0, .error .cdnNotEnabled⟩
  else ⟨[], 0, .error (.invalidContainerName c.name)⟩

/-- `Container.make_private`: name guard, CDN-enabled guard, then POST
with `X-CDN-Enabled: False`; non-2xx raises `ResponseError`; no cached
field is touched and the body is never read. -/
def Container.make_private (c : Container) (resp : Response) : Outcome Container :=
  if requiresNameOk c then
    match getattrCdnEnabled c.conn with
    | .error e => ⟨[], 0, .error e⟩
    | .ok enabled =>
      if enabled then
        let req : Request := ⟨true, .POST, [nameStr c], [("X-CDN-Enabled", "False")], []⟩
        if resp.status < 200 ∨ 300 ≤ resp.status then
          ⟨[req], 0, .error (.responseError resp.status resp.reason)⟩
        else ⟨[req], 0, .ok c⟩
      else ⟨[], 0, .error .cdnNotEnabled⟩
  else ⟨[], 0, .error (.invalidContainerName c.name)⟩

/-- `Container.is_public`: CDN-enabled guard (no name guard), then
`cdn_uri is not None` on the local cache; issues no request. -/
def Container.is_public (c : Container) : Outcome Bool :=
  match getattrCdnEnabled c.conn with
  | .error e => ⟨[], 0, .error e⟩
  | .ok enabled =>
    if enabled then ⟨[], 0, .ok c.cdn_uri.isSome⟩
    else ⟨[], 0, .error .cdnNotEnabled⟩

/-- Python `str.splitlines` restricted to `\n`-separated bodies (the wire
format of a container listing): like `splitOn "\n"` but a trailing
newline does not contribute an empty final element and the empty body
yields the empty list. -/
def splitlines (s : String) : List String :=
  match (s.splitOn "\n").reverse with
  | "" :: rest => rest.reverse
  | parts => parts.reverse

/-- `Container.list_objects(**parms)`: name guard, GET on the storage
endpoint with the query parameters passed through; non-2xx reads the body
and raises `ResponseError`; success reads the body and splits it into
lines. -/
def Container.list_objects (c : Container) (parms : List (String × String))
    (resp : Response) : Outcome (List String) :=
  if requiresNameOk c then
    let req : Request := ⟨false, .GET, [nameStr c], [], parms⟩
    if resp.status < 200 ∨ 299 < resp.status then
      ⟨[req], 1, .error (.responseError resp.status resp.reason)⟩
    else ⟨[req], 1, .ok (splitlines resp.body)⟩
  else ⟨[], 0, .error (.invalidContainerName c.name)⟩

/-- `Container.delete_object(object_name)`: name guard, then the
object-name guard (an `Object` handle contributes its name; a falsy name
raises `InvalidObjectName`), then DELETE on
`[container_name, object_name]`; the body is read on the error path
before raising `ResponseError` and on the success path before
returning. -/
def Container.delete_object (c : Container) (object_name : Option String)
    (resp : Response) : Outcome Unit :=
  if requiresNameOk c then
    if truthy object_name then
      let req : Request := ⟨false, .DELETE, [nameStr c, object_name.getD ""], [], []⟩
      if resp.status < 200 ∨ 299 < resp.status then
        ⟨[req], 1, .error (.responseError resp.status resp.reason)⟩
      else ⟨[req], 1, .ok ()⟩
    else ⟨[], 0, .error (.invalidObjectName object_name)⟩
  else ⟨[], 0, .error (.invalidContainerName c.name)⟩

/-- The state of a `ContainerResults` instance: the stored connection and
the underlying ordered sequence of container names. -/
structure ContainerResults where
  conn : PyConn
  _containers : List String
  deriving DecidableEq, Repr

/-- The list comprehension of `ContainerResults.__getslice__`, evaluated
left to right with the first raised error propagating: each element
constructs `Container(self._containers, k)` - the name list itself passed
as the connection.  `resps` supplies the HEAD response each construction
would receive. -/
def buildSliceGo (allNames : List String) (resps : Nat → Response) :
    Nat → List String → Outcome (List Container)
  | _, [] => ⟨[], 0, .ok []⟩
  | k, n :: rest =>
    let o := Container.init (.names allNames) (some n) none none (resps k)
    match o.res with
    | .error e => ⟨o.reqs, o.reads, .error e⟩
    | .ok c =>
      let o2 := buildSliceGo allNames resps (k + 1) rest
      match o2.res with
      | .error e => ⟨o.reqs ++ o2.reqs, o.reads + o2.reads, .error e⟩
      | .ok cs => ⟨o.reqs ++ o2.reqs, o.reads + o2.reads, .ok (c :: cs)⟩

/-- `ContainerResults.__getslice__(i, j)`: builds one `Container` per name
in `self._containers[i:j]`, passing the name list as the connection. -/
def ContainerResults.getslice (r : ContainerResults) (i j : Nat)
    (resps : Nat → Response) : Outcome (List Container) :=
  buildSliceGo r._containers resps i ((r._containers.drop i).take (j - i))

/-! ## Concrete fixtures for evaluation -/

/-- A plain 404 response. -/
def resp404 : Response := ⟨404, "Not Found", [], ""⟩

/-- A 204 response with no headers. -/
def resp204 : Response := ⟨204, "No Content", [], ""⟩

/-- A 201 response carrying an `X-CDN-URI` header. -/
def resp201 : Response := ⟨201, "Created", [("X-CDN-URI", "http://cdn.example.test/abc")], ""⟩

/-- A container with a valid name on a CDN-enabled connection, no cached
CDN state (as produced by construction when the HEAD returned no data). -/
def cFresh : Container := ⟨some "photos", .conn true, none, none, none, none, none, none⟩

/-- `cFresh` after a successful publish against a response with no
`x-cdn-uri` header. -/
def cFreshAfter : Container := ⟨some "photos", .conn true, none, none, none, some 3600, none, none⟩

/-- `cFresh` after a successful publish against `resp201`. -/
def cFreshPub : Container :=
  ⟨some "photos", .conn true, none, none, some "http://cdn.example.test/abc", some 3600, none, none⟩

/-- A published container with cached TTL and ACLs. -/
def cPub : Container :=
  ⟨some "photos", .conn true, none, none, some "http://cdn.example.test/abc", some 86400,
    some "agent1", some "ref1"⟩

/-- `cPub` after a successful `make_public(3600, "", None)` against `resp204`. -/
def cPubAfter : Container :=
  ⟨some "photos", .conn true, none, none, some "http://cdn.example.test/abc", some 3600,
    some "agent1", some "ref1"⟩

/-- A container whose cached `cdn_uri` is the empty string (as cached
from an empty `x-cdn-uri` response header). -/
def cEmptyUri : Container :=
  ⟨some "photos", .conn true, none, none, some "", none, some "agent1", none⟩

/-- A container with a valid name on a CDN-disabled connection. -/
def cDisabled : Container := ⟨some "photos", .conn false, none, none, none, none, none, none⟩

/-- The container produced by `Container((cdn-disabled conn), name="")`. -/
def cEmptyName : Container := ⟨some "", .conn false, none, none, none, none, none, none⟩

/-- A `ContainerResults` over three names. -/
def rNames : ContainerResults := ⟨.conn true, ["alpha", "beta", "gamma"]⟩

/-- A constant response oracle. -/
def constResp : Nat → Response := fun _ => resp404

/-! ## Supporting lemmas -/

theorem truthy_pyOr_right (a b : Option String) (h : truthy b = true) :
    truthy (pyOr a b) = true := by
  unfold pyOr
  cases ha : truthy a <;> simp [ha, h]

theorem pyOr_none_left (b : Option String) : pyOr none b = b := rfl

theorem pyOr_empty_left (b : Option String) : pyOr (some "") b = b := by
  simp [pyOr, truthy]

theorem uriScan_frame (hs : List (String × String)) (c : Container) :
    (uriScan c hs).name = c.name ∧ (uriScan c hs).conn = c.conn ∧
    (uriScan c hs).cdn_ttl = c.cdn_ttl ∧ (uriScan c hs).cdn_agent_acl = c.cdn_agent_acl ∧
    (uriScan c hs).cdn_referer_acl = c.cdn_referer_acl := by
  induction hs generalizing c with
  | nil => exact ⟨rfl, rfl, rfl, rfl, rfl⟩
  | cons p rest ih =>
    unfold uriScan
    by_cases hk : lowerStr p.1 == "x-cdn-uri" <;> simp only [hk, if_true, if_false] <;>
      exact ih _

theorem uriScan_isSome (hs : List (String × String)) (c : Container)
    (h : c.cdn_uri.isSome = true) : (uriScan c hs).cdn_uri.isSome = true := by
  induction hs generalizing c with
  | nil => exact h
  | cons p rest ih =>
    unfold uriScan
    by_cases hk : lowerStr p.1 == "x-cdn-uri" <;> simp only [hk, if_true, if_false]
    · exact ih _ (by simp)
    · exact ih _ h

theorem uriScan_isSome_of_any (hs : List (String × String)) (c : Container)
    (h : hs.any (fun p => lowerStr p.1 == "x-cdn-uri") = true) :
    (uriScan c hs).cdn_uri.isSome = true := by
  induction hs generalizing c with
  | nil => simp at h
  | cons p rest ih =>
    unfold uriScan
    by_cases hk : lowerStr p.1 == "x-cdn-uri" <;> simp only [hk, if_true, if_false]
    · exact uriScan_isSome rest _ (by simp)
    · refine ih _ ?_
      simpa [hk] using h

theorem applyHdr_frame (c : Container) (p : String × String) (c2 : Container)
    (h : applyHdr c p = .ok c2) : c2.name = c.name ∧ c2.conn = c.conn := by
  unfold applyHdr at h
  dsimp only at h
  split_ifs at h
  · injection h with h5
    subst h5
    exact ⟨rfl, rfl⟩
  · cases hp : pyInt p.2 with
    | error e => rw [hp] at h; simp [Except.map] at h
    | ok n =>
      rw [hp] at h
      simp only [Except.map] at h
      injection h with h5
      subst h5
      exact ⟨rfl, rfl⟩
  · injection h with h5
    subst h5
    exact ⟨rfl, rfl⟩
  · injection h with h5
    subst h5
    exact ⟨rfl, rfl⟩
  · injection h with h5
    subst h5
    exact ⟨rfl, rfl⟩

theorem scanHdrs_frame (hs : List (String × String)) (c c2 : Container)
    (h : scanHdrs c hs = .ok c2) : c2.name = c.name ∧ c2.conn = c.conn := by
  induction hs generalizing c with
  | nil =>
    unfold scanHdrs at h
    injection h with h5
    subst h5
    exact ⟨rfl, rfl⟩
  | cons p rest ih =>
    unfold scanHdrs at h
    cases hp : applyHdr c p with
    | error e => rw [hp] at h; simp at h
    | ok cm =>
      rw [hp] at h
      obtain ⟨h1, h2⟩ := ih cm h
      obtain ⟨h3, h4⟩ := applyHdr_frame c p cm hp
      exact ⟨h1.trans h3, h2.trans h4⟩

theorem make_public_run (c : Container) (ttl : Int) (ua ra : Option String) (resp : Response)
    (hn : requiresNameOk c = true) (hc : c.conn = .conn true) :
    c.make_public ttl ua ra resp =
      (if resp.status < 200 ∨ 300 ≤ resp.status then
        ⟨[⟨true, if truthy c.cdn_uri then .POST else .PUT, [nameStr c],
            mkPublicHdrs ttl (if truthy c.cdn_uri then pyOr ua c.cdn_agent_acl else ua)
              (if truthy c.cdn_uri then pyOr ra c.cdn_referer_acl else ra), []⟩], 0,
          .error (.responseError resp.status resp.reason)⟩
      else
        ⟨[⟨true, if truthy c.cdn_uri then .POST else .PUT, [nameStr c],
            mkPublicHdrs ttl (if truthy c.cdn_uri then pyOr ua c.cdn_agent_acl else ua)
              (if truthy c.cdn_uri then pyOr ra c.cdn_referer_acl else ra), []⟩], 0,
          .ok (uriScan { c with
              cdn_ttl := some ttl,
              cdn_agent_acl := if truthy c.cdn_uri then pyOr ua c.cdn_agent_acl else ua,
              cdn_referer_acl := if truthy c.cdn_uri then pyOr ra c.cdn_referer_acl else ra }
            resp.headers)⟩) := by
  simp only [Container.make_public, hn, hc, getattrCdnEnabled, if_true]

theorem make_private_run (c : Container) (resp : Response)
    (hn : requiresNameOk c = true) (hc : c.conn = .conn true) :
    c.make_private resp =
      (if resp.status < 200 ∨ 300 ≤ resp.status then
        ⟨[⟨true, .POST, [nameStr c], [("X-CDN-Enabled", "False")], []⟩], 0,
          .error (.responseError resp.status resp.reason)⟩
      else
        ⟨[⟨true, .POST, [nameStr c], [("X-CDN-Enabled", "False")], []⟩], 0, .ok c⟩) := by
  simp only [Container.make_private, hn, hc, getattrCdnEnabled, if_true]

theorem fetch_cdn_data_non2xx (c : Container) (resp : Response)
    (hn : requiresNameOk c = true) (hs : ¬(200 ≤ resp.status ∧ resp.status < 300)) :
    c.fetch_cdn_data resp = ⟨[⟨true, .HEAD, [nameStr c], [], []⟩], 0, .ok c⟩ := by
  simp only [Container.fetch_cdn_data, hn, hs, if_true, if_false]

theorem lookup_mkPublicHdrs_ua (ttl : Int) (ua ra : Option String) :
    (mkPublicHdrs ttl ua ra).lookup "X-User-Agent-ACL" = if truthy ua then ua else none := by
  unfold mkPublicHdrs
  cases hu : ua with
  | none => cases hr : truthy ra <;> simp [List.lookup, truthy]
  | some s =>
    by_cases hs : s = ""
    · subst hs
      cases hr : truthy ra <;> simp [List.lookup, truthy]
    · cases hr : truthy ra <;> simp [List.lookup, truthy, hs]

theorem lookup_mkPublicHdrs_ref (ttl : Int) (ua ra : Option String) :
    (mkPublicHdrs ttl ua ra).lookup "X-Referrer-ACL" = if truthy ra then ra else none := by
  unfold mkPublicHdrs
  cases hr : ra with
  | none => cases hu : truthy ua <;> simp [List.lookup, truthy, hu]
  | some s =>
    by_cases hs : s = ""
    · subst hs
      cases hu : truthy ua <;> simp [List.lookup, truthy, hu]
    · cases hu : truthy ua <;> simp [List.lookup, truthy, hu, hs]

/-! ## Claims -/

/-- Claim C5: for every string name containing the separator `'/'`,
constructing a `Container` raises `InvalidContainerName` before any HTTP
request (the request trace is empty, so in particular the constructor's
CDN metadata fetch never runs). -/
theorem C5_slash_name_rejected (connection : PyConn) (s : String)
    (count size : Option Int) (resp : Response) (h : '/' ∈ s.toList) :
    Container.init connection (some s) count size resp
      = ⟨[], 0, .error (.invalidContainerName (some s))⟩ := by
  have hsl : nameHasSlash (some s) = true := by simpa [nameHasSlash] using h
  simp [Container.init, hsl]

/-- Witness for C5 at the concrete name `"a/b"`. -/
theorem C5_witness :
    '/' ∈ "a/b".toList ∧
    Container.init (.conn true) (some "a/b") none none resp404
      = ⟨[], 0, .error (.invalidContainerName (some "a/b"))⟩ :=
  ⟨by decide, C5_slash_name_rejected (.conn true) "a/b" none none resp404 (by decide)⟩

/-- Claim C8: whenever `make_private` completes without raising, the
cached `cdn_uri` and `cdn_ttl` fields are unchanged from their values
immediately before the call (the method touches no cached field). -/
theorem C8_make_private_frame (c : Container) (resp : Response) (c2 : Container)
    (h : (c.make_private resp).res = .ok c2) :
    c2.cdn_uri = c.cdn_uri ∧ c2.cdn_ttl = c.cdn_ttl := by
  have hcc : c2 = c := by
    by_cases hn : requiresNameOk c = true
    · rcases hco : c.conn with b | ns | _
      · cases b
        · unfold Container.make_private at h
          simp [hn, hco, getattrCdnEnabled] at h
        · rw [make_private_run c resp hn hco] at h
          by_cases hst : resp.status < 200 ∨ 300 ≤ resp.status
          · simp [hst] at h
          · simp [hst] at h
            exact h.symm
      · unfold Container.make_private at h
        simp [hn, hco, getattrCdnEnabled] at h
      · unfold Container.make_private at h
        simp [hn, hco, getattrCdnEnabled] at h
    · unfold Container.make_private at h
      simp [hn] at h
  subst hcc
  exact ⟨rfl, rfl⟩

/-- Witness for C8: a successful `make_private` on `cPub` returns the
very same cached state. -/
theorem C8_witness :
    (cPub.make_private resp204).res = .ok cPub ∧
    cPub.cdn_uri = cPub.cdn_uri ∧ cPub.cdn_ttl = cPub.cdn_ttl :=
  ⟨rfl, C8_make_private_frame cPub resp204 cPub rfl⟩

/-- Claim C4: on a non-2xx response, each request-issuing method other
than `_fetch_cdn_data` (`make_public`, `make_private`, `list_objects`,
`delete_object`) raises `ResponseError` carrying exactly the status code
and reason string of that response; `_fetch_cdn_data` on a non-2xx
response raises nothing and updates no field. -/
theorem C4_non2xx_response_error (c : Container) (resp : Response) (ttl : Int)
    (ua ra oname : Option String) (parms : List (String × String))
    (hn : requiresNameOk c = true) (hco : c.conn = .conn true)
    (ho : truthy oname = true)
    (hs : ¬(200 ≤ resp.status ∧ resp.status < 300)) :
    (c.make_public ttl ua ra resp).res = .error (.responseError resp.status resp.reason) ∧
    (c.make_private resp).res = .error (.responseError resp.status resp.reason) ∧
    (c.list_objects parms resp).res = .error (.responseError resp.status resp.reason) ∧
    (c.delete_object oname resp).res = .error (.responseError resp.status resp.reason) ∧
    c.fetch_cdn_data resp = ⟨[⟨true, .HEAD, [nameStr c], [], []⟩], 0, .ok c⟩ := by
  have hs1 : resp.status < 200 ∨ 300 ≤ resp.status := by omega
  have hs2 : resp.status < 200 ∨ 299 < resp.status := by omega
  refine ⟨?_, ?_, ?_, ?_, fetch_cdn_data_non2xx c resp hn hs⟩
  · rw [make_public_run c ttl ua ra resp hn hco]
    simp [hs1]
  · rw [make_private_run c resp hn hco]
    simp [hs1]
  · simp [Container.list_objects, hn, hs2]
  · simp [Container.delete_object, hn, ho, hs2]

/-- Witness for C4 at a concrete 404 response. -/
theorem C4_witness :
    requiresNameOk cFresh = true ∧ cFresh.conn = .conn true ∧
    truthy (some "obj") = true ∧ ¬(200 ≤ resp404.status ∧ resp404.status < 300) ∧
    (cFresh.make_public 3600 none none resp404).res = .error (.responseError 404 "Not Found") ∧
    (cFresh.delete_object (some "obj") resp404).res = .error (.responseError 404 "Not Found") := by
  have h := C4_non2xx_response_error cFresh resp404 3600 none none (some "obj") []
    (by decide) (by decide) (by decide) (by decide)
  exact ⟨by decide, by decide, by decide, by decide, h.1, h.2.2.2.1⟩

/-- Claim C3 (counterexample): a container constructed with the empty
string as name on a CDN-disabled connection (construction succeeds) gets
`InvalidContainerName` - not the CDN-not-enabled error - from
`make_public` and `make_private`, because the name guard runs before the
CDN guard. -/
theorem C3_counterexample :
    (Container.init (.conn false) (some "") none none resp404).res = .ok cEmptyName ∧
    (cEmptyName.make_public 3600 none none resp404).res
      = .error (.invalidContainerName (some "")) ∧
    (cEmptyName.make_private resp404).res = .error (.invalidContainerName (some "")) :=
  ⟨rfl, rfl, rfl⟩

/-- Claim C3 (amended): on a CDN-disabled connection, `make_public` and
`make_private` raise the CDN-not-enabled error and issue no request for
every container with a truthy (non-empty) name - a container with an
empty name gets the naming error from the name guard instead - while
`is_public`, which has no name guard, raises the CDN-not-enabled error
for every container on such a connection, also issuing no request. -/
theorem C3_cdn_disabled (c : Container) (ttl : Int) (ua ra : Option String)
    (resp : Response) (hco : c.conn = .conn false) :
    (requiresNameOk c = true →
      c.make_public ttl ua ra resp = ⟨[], 0, .error .cdnNotEnabled⟩ ∧
      c.make_private resp = ⟨[], 0, .error .cdnNotEnabled⟩) ∧
    c.is_public = ⟨[], 0, .error .cdnNotEnabled⟩ := by
  constructor
  · intro hn
    constructor
    · simp [Container.make_public, hn, hco, getattrCdnEnabled]
    · simp [Container.make_private, hn, hco, getattrCdnEnabled]
  · simp [Container.is_public, hco, getattrCdnEnabled]

/-- Witness for C3 (amended) on the concrete container `cDisabled`. -/
theorem C3_witness :
    cDisabled.conn = .conn false ∧ requiresNameOk cDisabled = true ∧
    cDisabled.make_public 3600 none none resp404 = ⟨[], 0, .error .cdnNotEnabled⟩ ∧
    cDisabled.make_private resp404 = ⟨[], 0, .error .cdnNotEnabled⟩ ∧
    cDisabled.is_public = ⟨[], 0, .error .cdnNotEnabled⟩ := by
  have h := C3_cdn_disabled cDisabled 3600 none none resp404 (by decide)
  exact ⟨by decide, by decide, (h.1 (by decide)).1, (h.1 (by decide)).2, h.2⟩

/-- Claim C1 (counterexample): a container whose `cdn_uri` is known
(non-`None`) but empty gets a create-style PUT request from
`make_public` - and no ACL header despite a cached agent ACL - because
the code dispatches on Python truthiness, not on `None`-ness; the claim
says a known `cdn_uri` yields a POST update request. -/
theorem C1_counterexample :
    cEmptyUri.cdn_uri ≠ none ∧ cEmptyUri.cdn_agent_acl = some "agent1" ∧
    (cEmptyUri.make_public 3600 none none resp404).reqs.map Request.method = [Method.PUT] ∧
    (cEmptyUri.make_public 3600 none none resp404).reqs.map
        (fun r => r.hdrs.lookup "X-User-Agent-ACL") = [none] :=
  ⟨by decide, rfl, rfl, rfl⟩

/-- Claim C1 (amended): `make_public` issues exactly one CDN request: a
create-style PUT when the cached `cdn_uri` is falsy (`None` or the empty
string), an update-style POST when it is non-empty; on the update path an
ACL argument that was not explicitly supplied (or is falsy) defaults
through Python `or` to the cached ACL value, and each ACL header is
included, with that resulting value, exactly when the resulting value is
non-empty. -/
theorem C1_make_public_dispatch (c : Container) (ttl : Int) (ua ra : Option String)
    (resp : Response) (hn : requiresNameOk c = true) (hco : c.conn = .conn true) :
    (c.make_public ttl ua ra resp).reqs.map Request.isCdn = [true] ∧
    (c.make_public ttl ua ra resp).reqs.map Request.method
      = [if truthy c.cdn_uri then Method.POST else Method.PUT] ∧
    (truthy c.cdn_uri = true →
      (c.make_public ttl ua ra resp).reqs.map (fun r => r.hdrs.lookup "X-User-Agent-ACL")
          = [if truthy (pyOr ua c.cdn_agent_acl) then pyOr ua c.cdn_agent_acl else none] ∧
      (c.make_public ttl ua ra resp).reqs.map (fun r => r.hdrs.lookup "X-Referrer-ACL")
          = [if truthy (pyOr ra c.cdn_referer_acl) then pyOr ra c.cdn_referer_acl else none]) ∧
    (truthy c.cdn_uri = false →
      (c.make_public ttl ua ra resp).reqs.map (fun r => r.hdrs.lookup "X-User-Agent-ACL")
          = [if truthy ua then ua else none]) := by
  rw [make_public_run c ttl ua ra resp hn hco]
  by_cases hst : resp.status < 200 ∨ 300 ≤ resp.status <;>
    cases hu : truthy c.cdn_uri <;>
      simp [hst, hu, lookup_mkPublicHdrs_ua, lookup_mkPublicHdrs_ref]

/-- Witness for C1 (amended) on the published container `cPub`. -/
theorem C1_witness :
    requiresNameOk cPub = true ∧ cPub.conn = .conn true ∧ truthy cPub.cdn_uri = true ∧
    (cPub.make_public 3600 none none resp204).reqs.map Request.method = [Method.POST] ∧
    (cPub.make_public 3600 none none resp204).reqs.map
        (fun r => r.hdrs.lookup "X-User-Agent-ACL") = [some "agent1"] := by
  have h := C1_make_public_dispatch cPub 3600 none none resp204 (by decide) (by decide)
  refine ⟨by decide, by decide, by decide, ?_, ?_⟩
  · have h2 := h.2.1
    simpa using h2
  · have h3 := (h.2.2.1 (by decide)).1
    simpa using h3

/-- Claim C2 (counterexample): on a fresh container (no cached
`cdn_uri`), `make_public(ttl=3600)` completing with a 2xx response that
carries no `x-cdn-uri` header leaves `cdn_uri` unset, so `is_public()`
returns `false` even though the call succeeded (only `cdn_ttl = 3600`
holds). -/
theorem C2_counterexample :
    (cFresh.make_public 3600 none none resp204).res = .ok cFreshAfter ∧
    cFreshAfter.cdn_ttl = some 3600 ∧
    cFreshAfter.is_public.res = .ok false :=
  ⟨rfl, rfl, rfl⟩

/-- Claim C2 (amended): whenever `make_public(ttl=3600)` completes
without raising (truthy name, CDN-enabled connection, 2xx response), the
resulting container has `cdn_ttl = 3600`; and `is_public()` then returns
`true` provided the container already had a cached `cdn_uri` or the
response carried an `x-cdn-uri` header (absent both, `cdn_uri` stays
`None` and `is_public()` is `false`, as the counterexample shows). -/
theorem C2_make_public_ttl (c : Container) (resp : Response) (c2 : Container)
    (hn : requiresNameOk c = true) (hco : c.conn = .conn true)
    (hst : 200 ≤ resp.status ∧ resp.status < 300)
    (h : (c.make_public 3600 none none resp).res = .ok c2) :
    c2.cdn_ttl = some 3600 ∧
    (c.cdn_uri.isSome = true ∨ resp.headers.any (fun p => lowerStr p.1 == "x-cdn-uri") = true →
      c2.is_public.res = .ok true) := by
  rw [make_public_run c 3600 none none resp hn hco] at h
  have hst2 : ¬(resp.status < 200 ∨ 300 ≤ resp.status) := by omega
  simp only [hst2, if_false] at h
  rw [Except.ok.injEq] at h
  subst h
  have key : ∀ d : Container, d.conn = PyConn.conn true → d.cdn_uri.isSome = true →
      d.is_public.res = .ok true := by
    intro d hdc hds
    unfold Container.is_public
    rw [hdc]
    simp [getattrCdnEnabled, hds]
  constructor
  · exact (uriScan_frame resp.headers _).2.2.1
  · intro hdisj
    refine key _ ((uriScan_frame resp.headers _).2.1.trans hco) ?_
    rcases hdisj with huri | hh
    · exact uriScan_isSome resp.headers _ (by simpa using huri)
    · exact uriScan_isSome_of_any resp.headers _ hh

/-- Witness for C2 (amended): publishing `cFresh` against a 201 response
that carries `X-CDN-URI`. -/
theorem C2_witness :
    requiresNameOk cFresh = true ∧ cFresh.conn = .conn true ∧
    (200 ≤ resp201.status ∧ resp201.status < 300) ∧
    (cFresh.make_public 3600 none none resp201).res = .ok cFreshPub ∧
    cFreshPub.cdn_ttl = some 3600 ∧ cFreshPub.is_public.res = .ok true := by
  have h := C2_make_public_ttl cFresh resp201 cFreshPub (by decide) (by decide)
    (by decide) (by decide)
  exact ⟨by decide, by decide, by decide, by decide, h.1, h.2 (Or.inr (by decide))⟩

/-- Claim C6 (counterexample): construction with the empty-string name
succeeds when the connection has CDN disabled (the slash check passes and
the name guard of `_fetch_cdn_data` is never reached), producing a
container whose name is the empty string - both the claimed invariant and
the claimed construction failure fail. -/
theorem C6_counterexample :
    (Container.init (.conn false) (some "") none none resp404).res = .ok cEmptyName ∧
    cEmptyName.name = some "" :=
  ⟨rfl, rfl⟩

/-- Claim C6 (amended): a successfully constructed container's name
never contains the separator, and construction with a separator-bearing
string name fails immediately with the naming error; on a CDN-enabled
connection a falsy (missing or empty) name also fails with the naming
error before any request; but on a CDN-disabled connection an empty-string
name is accepted, so the non-emptiness half of the invariant does not
hold. -/
theorem C6_name_invariant :
    (∀ connection name count size resp c,
      (Container.init connection name count size resp).res = .ok c →
        nameHasSlash c.name = false) ∧
    (∀ connection s count size resp, '/' ∈ s.toList →
      Container.init connection (some s) count size resp
        = ⟨[], 0, .error (.invalidContainerName (some s))⟩) ∧
    (∀ name count size resp, truthy name = false →
      Container.init (.conn true) name count size resp
        = ⟨[], 0, .error (.invalidContainerName name)⟩) ∧
    (∀ count size resp,
      (Container.init (.conn false) (some "") count size resp).res
        = .ok ⟨some "", .conn false, count, size, none, none, none, none⟩) := by
  refine ⟨?_, ?_, ?_, ?_⟩
  · intro connection name count size resp c h
    by_cases hsl : nameHasSlash name = true
    · simp [Container.init, hsl] at h
    · have hsl2 : nameHasSlash name = false := by simpa using hsl
      unfold Container.init at h
      rcases connection with b | ns | _
      · cases b
        · simp [hsl2, getattrCdnEnabled] at h
          rw [← h]
          exact hsl2
        · simp only [hsl2, Bool.false_eq_true, if_false, getattrCdnEnabled, if_true] at h
          unfold Container.fetch_cdn_data at h
          by_cases hn : requiresNameOk (⟨name, .conn true, count, size,
              none, none, none, none⟩ : Container) = true
          · simp only [hn, if_true] at h
            by_cases hst : 200 ≤ resp.status ∧ resp.status < 300
            · rw [if_pos hst] at h
              cases hscan : scanHdrs ⟨name, .conn true, count, size,
                  none, none, none, none⟩ resp.headers with
              | error e => rw [hscan] at h; simp at h
              | ok cs =>
                rw [hscan] at h
                simp only [Except.ok.injEq] at h
                subst h
                have hname := (scanHdrs_frame resp.headers _ _ hscan).1
                rw [hname]
                exact hsl2
            · rw [if_neg hst] at h
              simp only [Except.ok.injEq] at h
              rw [← h]
              exact hsl2
          · simp [hn] at h
      · simp [hsl2, getattrCdnEnabled] at h
      · simp [hsl2, getattrCdnEnabled] at h
  · intro connection s count size resp h
    have hsl : nameHasSlash (some s) = true := by simpa [nameHasSlash] using h
    simp [Container.init, hsl]
  · intro name count size resp hfal
    have hsl2 : nameHasSlash name = false := by
      cases name with
      | none => rfl
      | some s =>
        have : s = "" := by
          by_contra hne
          simp [truthy, hne] at hfal
        subst this
        rfl
    have hn : requiresNameOk (⟨name, .conn true, count, size,
        none, none, none, none⟩ : Container) = false := by
      simpa [requiresNameOk] using hfal
    simp [Container.init, hsl2, getattrCdnEnabled, Container.fetch_cdn_data, hn]
  · intro count size resp
    rfl

/-- Witness for C6 (amended) at concrete names. -/
theorem C6_witness :
    nameHasSlash (some "alpha") = false ∧
    Container.init (.conn true) (some "a/b") none none resp404
      = ⟨[], 0, .error (.invalidContainerName (some "a/b"))⟩ ∧
    Container.init (.conn true) (some "") none none resp404
      = ⟨[], 0, .error (.invalidContainerName (some ""))⟩ ∧
    (Container.init (.conn false) (some "") none none resp404).res
      = .ok ⟨some "", .conn false, none, none, none, none, none, none⟩ := by
  refine ⟨?_, ?_, ?_, ?_⟩
  · exact C6_name_invariant.1 (.conn false) (some "alpha") none none resp404
      ⟨some "alpha", .conn false, none, none, none, none, none, none⟩ rfl
  · exact C6_name_invariant.2.1 (.conn true) "a/b" none none resp404 (by decide)
  · exact C6_name_invariant.2.2.1 (some "") none none resp404 (by decide)
  · exact C6_name_invariant.2.2.2 none none resp404

/-- Claim C7 (counterexample): `make_public` and `make_private` issue a
request but never call `read()` on its response - neither on success nor
on failure - so not every request-issuing code path drains the response
body. -/
theorem C7_counterexample :
    (cPub.make_public 3600 none none resp204).reqs.length = 1 ∧
    (cPub.make_public 3600 none none resp204).reads = 0 ∧
    (cPub.make_public 3600 none none resp404).reads = 0 ∧
    (cPub.make_private resp204).reads = 0 ∧
    (cPub.make_private resp404).reads = 0 :=
  ⟨rfl, rfl, rfl, rfl, rfl⟩

/-- Claim C7 (amended): `list_objects` and `delete_object` read the
response body exactly once on both their success and their error paths;
`make_public`, `make_private` and `_fetch_cdn_data` never read the
response body on any path. -/
theorem C7_body_drain (c : Container) (resp : Response) (ttl : Int)
    (ua ra oname : Option String) (parms : List (String × String))
    (hn : requiresNameOk c = true) (ho : truthy oname = true) :
    (c.list_objects parms resp).reads = 1 ∧
    (c.delete_object oname resp).reads = 1 ∧
    (c.make_public ttl ua ra resp).reads = 0 ∧
    (c.make_private resp).reads = 0 ∧
    (c.fetch_cdn_data resp).reads = 0 := by
  refine ⟨?_, ?_, ?_, ?_, ?_⟩
  · unfold Container.list_objects
    rw [if_pos hn]
    dsimp only
    split <;> rfl
  · unfold Container.delete_object
    rw [if_pos hn, if_pos ho]
    dsimp only
    split <;> rfl
  · rcases hco : c.conn with b | ns | _
    · cases b
      · simp [Container.make_public, hn, hco, getattrCdnEnabled]
      · by_cases hst : resp.status < 200 ∨ 300 ≤ resp.status <;>
          simp [Container.make_public, hn, hco, getattrCdnEnabled, hst]
    · simp [Container.make_public, hn, hco, getattrCdnEnabled]
    · simp [Container.make_public, hn, hco, getattrCdnEnabled]
  · rcases hco : c.conn with b | ns | _
    · cases b
      · simp [Container.make_private, hn, hco, getattrCdnEnabled]
      · by_cases hst : resp.status < 200 ∨ 300 ≤ resp.status <;>
          simp [Container.make_private, hn, hco, getattrCdnEnabled, hst]
    · simp [Container.make_private, hn, hco, getattrCdnEnabled]
    · simp [Container.make_private, hn, hco, getattrCdnEnabled]
  · unfold Container.fetch_cdn_data
    rw [if_pos hn]
    dsimp only
    split
    · split <;> rfl
    · rfl

/-- Witness for C7 (amended) on concrete calls against a 404. -/
theorem C7_witness :
    requiresNameOk cFresh = true ∧ truthy (some "obj") = true ∧
    (cFresh.list_objects [] resp404).reads = 1 ∧
    (cFresh.delete_object (some "obj") resp404).reads = 1 ∧
    (cFresh.make_public 3600 none none resp404).reads = 0 := by
  have h := C7_body_drain cFresh resp404 3600 none none (some "obj") [] (by decide) (by decide)
  exact ⟨by decide, by decide, h.1, h.2.1, h.2.2.1⟩

/-- Claim C9 (counterexample): slicing a `ContainerResults` does not
return `Container` instances for the sub-range: each element of the
comprehension constructs `Container(self._containers, name)`, and the
name list has no `cdn_enabled` attribute, so the first construction
raises `AttributeError`. -/
theorem C9_counterexample :
    (rNames.getslice 0 2 constResp).res = .error (.attributeError "cdn_enabled") := rfl

/-- Claim C9 (amended): `__getslice__` builds one container per name of
the contiguous sub-range `_containers[i:j]`, passing the underlying name
sequence itself - not the stored connection - as the connection argument;
consequently an empty sub-range yields `[]`, while a non-empty sub-range
raises on its first element (`InvalidContainerName` if that name contains
a slash, otherwise `AttributeError` for the missing `cdn_enabled`
attribute) instead of returning containers. -/
theorem C9_getslice (r : ContainerResults) (i j : Nat) (resps : Nat → Response) :
    ((r._containers.drop i).take (j - i) = [] →
      r.getslice i j resps = ⟨[], 0, .ok []⟩) ∧
    (∀ n rest, (r._containers.drop i).take (j - i) = n :: rest →
      (r.getslice i j resps).res
        = .error (if nameHasSlash (some n) = true then Err.invalidContainerName (some n)
            else Err.attributeError "cdn_enabled")) := by
  constructor
  · intro hemp
    unfold ContainerResults.getslice
    rw [hemp]
    rfl
  · intro n rest hcons
    unfold ContainerResults.getslice
    rw [hcons]
    unfold buildSliceGo
    by_cases hsl : nameHasSlash (some n) = true
    · simp [Container.init, hsl]
    · have hsl2 : nameHasSlash (some n) = false := by simpa using hsl
      simp [Container.init, hsl2, getattrCdnEnabled]

/-- Witness for C9 (amended): the empty slice `[0:0]` and the slice
`[1:3]` of a three-name result set. -/
theorem C9_witness :
    ((rNames._containers.drop 0).take (0 - 0) = []) ∧
    rNames.getslice 0 0 constResp = ⟨[], 0, .ok []⟩ ∧
    ((rNames._containers.drop 1).take (3 - 1) = "beta" :: ["gamma"]) ∧
    (rNames.getslice 1 3 constResp).res = .error (.attributeError "cdn_enabled") := by
  have h0 := C9_getslice rNames 0 0 constResp
  have h := (C9_getslice rNames 1 3 constResp).2 "beta" ["gamma"] (by decide)
  have hb : nameHasSlash (some "beta") = false := by decide
  rw [hb] at h
  simp only [Bool.false_eq_true, if_false] at h
  exact ⟨by decide, h0.1 (by decide), by decide, h⟩

/-- Claim C10: on the update path (truthy cached `cdn_uri`), a falsy ACL
argument - the empty string exactly as much as an omitted `None` - is
replaced by the cached ACL value, so calling `make_public` with `""` is
indistinguishable from omitting the argument; hence a previously set
non-empty agent ACL survives every successful `make_public`, and the ACL
header is sent exactly when the resulting (defaulted) value is
non-empty. -/
theorem C10_acl_defaulting (c : Container) (ttl : Int) (ua ra : Option String)
    (resp : Response) (c2 : Container) (hu : truthy c.cdn_uri = true) :
    (c.make_public ttl (some "") ra resp = c.make_public ttl none ra resp) ∧
    (c.make_public ttl ua (some "") resp = c.make_public ttl ua none resp) ∧
    (truthy c.cdn_agent_acl = true → (c.make_public ttl ua ra resp).res = .ok c2 →
      truthy c2.cdn_agent_acl = true) ∧
    (requiresNameOk c = true → c.conn = .conn true →
      (c.make_public ttl ua ra resp).reqs.map (fun r => r.hdrs.lookup "X-User-Agent-ACL")
        = [if truthy (pyOr ua c.cdn_agent_acl) then pyOr ua c.cdn_agent_acl else none]) := by
  refine ⟨?_, ?_, ?_, ?_⟩
  · simp only [Container.make_public, hu, if_true, pyOr_empty_left, pyOr_none_left]
  · simp only [Container.make_public, hu, if_true, pyOr_empty_left, pyOr_none_left]
  · intro hacl h
    by_cases hn : requiresNameOk c = true
    · rcases hco : c.conn with b | ns | _
      · cases b
        · unfold Container.make_public at h
          simp [hn, hco, getattrCdnEnabled] at h
        · rw [make_public_run c ttl ua ra resp hn hco] at h
          by_cases hst : resp.status < 200 ∨ 300 ≤ resp.status
          · simp [hst] at h
          · rw [if_neg hst] at h
            simp only [hu, if_true, Except.ok.injEq] at h
            subst h
            have hfr := (uriScan_frame resp.headers { c with cdn_ttl := some ttl, cdn_agent_acl := pyOr ua c.cdn_agent_acl, cdn_referer_acl := pyOr ra c.cdn_referer_acl }).2.2.2.1
            rw [hfr]
            exact truthy_pyOr_right ua c.cdn_agent_acl hacl
      · unfold Container.make_public at h
        simp [hn, hco, getattrCdnEnabled] at h
      · unfold Container.make_public at h
        simp [hn, hco, getattrCdnEnabled] at h
    · unfold Container.make_public at h
      simp [hn] at h
  · intro hn hco
    rw [make_public_run c ttl ua ra resp hn hco]
    by_cases hst : resp.status < 200 ∨ 300 ≤ resp.status <;>
      simp [hst, hu, lookup_mkPublicHdrs_ua]

/-- Witness for C10 on the published container `cPub`. -/
theorem C10_witness :
    truthy cPub.cdn_uri = true ∧ truthy cPub.cdn_agent_acl = true ∧
    (cPub.make_public 3600 (some "") none resp204 = cPub.make_public 3600 none none resp204) ∧
    (cPub.make_public 3600 (some "") none resp204).res = .ok cPubAfter ∧
    truthy cPubAfter.cdn_agent_acl = true := by
  have h := C10_acl_defaulting cPub 3600 (some "") none resp204 cPubAfter (by decide)
  exact ⟨by decide, by decide, h.1, by decide, h.2.2.1 (by decide) (by decide)⟩

end CloudFiles
